import Mathlib

/-!
Verification of the transaction canonicalization/validation core of the
lighter-go-improved repository, shallowly embedded from
`src/types/txtypes/transfer.go` and `src/types/txtypes/withdraw.go`.

Machine integers are embedded as `Nat`/`Int` with explicit `% 2 ^ w`
reductions at the points where the Go code performs unsigned conversions.
The per-type constants, the Goldilocks field codec and the Poseidon2 sponge
come from files / external libraries that are not under `src/`; they are
modelled from the spec and documented as such on each definition.
-/

/-- Modelled from the spec: the prime of the Goldilocks field used by the
external `poseidon_crypto` library (`field/goldilocks`), whose elements
cannot hold a full 64-bit value: `p = 2^64 - 2^32 + 1`. -/
def goldilocksP : Nat := 2 ^ 64 - 2 ^ 32 + 1

/-- Modelled from the spec: the transaction-type domain-separation tag for
transfers (`TxTypeL2Transfer`); its numeric value lives in a constants file
outside `src/`, and only its distinctness from other tags is relied upon. -/
def TxTypeL2Transfer : Nat := 12

/-- Modelled from the spec: the transaction-type domain-separation tag for
withdrawals (`TxTypeL2Withdraw`); distinct from `TxTypeL2Transfer`. -/
def TxTypeL2Withdraw : Nat := 13

/-- Modelled from the spec: the minimum account index; the spec says account
indices are bounded below by a zero/system account that may receive but not
send transfers. -/
def MinAccountIndex : Int := 0

/-- Modelled from the spec: the maximum account index (a bounded signed
index; the exact constant lives outside `src/`). -/
def MaxAccountIndex : Int := 281474976710655

/-- Modelled from the spec: API-key indices range over 0–255. -/
def MinApiKeyIndex : Nat := 0

/-- Modelled from the spec: API-key indices range over 0–255. -/
def MaxApiKeyIndex : Nat := 255

/-- Modelled from the spec: the minimum asset index (bounded enumeration;
exact constant outside `src/`). -/
def MinAssetIndex : Int := 0

/-- Modelled from the spec: the maximum asset index (bounded enumeration;
exact constant outside `src/`). -/
def MaxAssetIndex : Int := 32767

/-- Modelled from the spec: one of the two defined asset-route constants
(two values representing distinct asset-routing domains). -/
def AssetRouteType_Perps : Nat := 0

/-- Modelled from the spec: the other defined asset-route constant. -/
def AssetRouteType_Spot : Nat := 1

/-- Modelled from the spec: the explicit per-type maximum transfer amount
(also bounds the USDC fee); the exact constant lives outside `src/`. -/
def MaxTransferAmount : Int := 281474976710655

/-- Modelled from the spec: the explicit per-type maximum withdrawal
amount; the exact constant lives outside `src/`. -/
def MaxWithdrawalAmount : Nat := 281474976710655

/-- Modelled from the spec: nonces are non-negative. -/
def MinNonce : Int := 0

/-- Modelled from the spec: expiry timestamps are bounded to a maximum
horizon; the exact constant lives outside `src/`. -/
def MaxTimestamp : Int := 281474976710655

/-- The validation errors returned by the two `Validate` methods in
`src/types/txtypes`; the error values themselves are declared in a file
outside `src/`, but only their distinct identities matter. -/
inductive TxError where
  | ErrFromAccountIndexTooLow
  | ErrFromAccountIndexTooHigh
  | ErrApiKeyIndexTooLow
  | ErrApiKeyIndexTooHigh
  | ErrToAccountIndexTooLow
  | ErrToAccountIndexTooHigh
  | ErrAssetIndexTooLow
  | ErrAssetIndexTooHigh
  | ErrRouteTypeInvalid
  | ErrTransferAmountTooLow
  | ErrTransferAmountTooHigh
  | ErrTransferFeeNegative
  | ErrTransferFeeTooHigh
  | ErrNonceTooLow
  | ErrExpiredAtInvalid
  | ErrWithdrawalAmountTooLow
  | ErrWithdrawalAmountTooHigh
  deriving DecidableEq, Repr

/-- Go's `uint64(i)` conversion of an `int64`: the unsigned bit pattern of
the signed value, i.e. `i mod 2^64`. -/
def uint64OfInt (i : Int) : Nat := (i % (2 ^ 64 : Int)).toNat

/-- Go's `uint32(i)` conversion of a small signed integer (`int16` in
`transfer.go`/`withdraw.go`): the low 32 bits of its two's-complement
pattern, i.e. `i mod 2^32`. -/
def uint32OfInt (i : Int) : Nat := (i % (2 ^ 32 : Int)).toNat

/-- Modelled from the spec: `g.FromUint32` of the external Goldilocks
library embeds a `uint32` value exactly as a field element (every such
value is below the prime); the `% 2^32` records the `uint32` input type. -/
def gFromUint32 (n : Nat) : Nat := n % 2 ^ 32

/-- Modelled from the spec: `g.FromUint64` of the external Goldilocks
library reduces a `uint64` value into the field. -/
def gFromUint64 (n : Nat) : Nat := n % goldilocksP

/-- Modelled from the spec: `g.FromInt64` of the external Goldilocks
library reinterprets the signed value as its unsigned bit pattern (per the
spec's Field Codec contract) and reduces it into the field. -/
def gFromInt64 (i : Int) : Nat := uint64OfInt i % goldilocksP

/-- The low 32-bit limb as computed by the preimage builders:
`v & 0xFFFFFFFF` (`transfer.go` line 152, `withdraw.go` line 94). -/
def low64 (v : Nat) : Nat := v &&& 0xFFFFFFFF

/-- The high 32-bit limb as computed by the preimage builders:
`v >> 32` (`transfer.go` line 153, `withdraw.go` line 95). -/
def high64 (v : Nat) : Nat := v >>> 32

/-- Modelled from the spec: the external sponge hash
(`p2.HashToQuinticExtension` followed by `ToLittleEndianBytes`) is a pure
function of the canonical element sequence, treated by the spec as a
trusted external primitive; it is modelled as an injective (collision-free)
encoding of the sequence of field elements, reflecting that trust. -/
def HashToQuinticExtension (elems : List Nat) : Nat :=
  Nat.ofDigits (goldilocksP + 1) (elems.map (fun x => x % goldilocksP + 1))

/-- `L2TransferTxInfo` from `src/types/txtypes/transfer.go`: `int64` fields
become `Int`, `uint8`/`uint64` fields become `Nat`, the 32-byte memo
becomes a list of bytes. -/
structure L2TransferTxInfo where
  FromAccountIndex : Int
  ApiKeyIndex : Nat
  ToAccountIndex : Int
  AssetIndex : Int
  FromRouteType : Nat
  ToRouteType : Nat
  Amount : Int
  USDCFee : Int
  Memo : List Nat
  ExpiredAt : Int
  Nonce : Int
  Sig : List Nat
  L1Sig : List Char
  SignedHash : List Char
  deriving Repr

/-- `L2WithdrawTxInfo` from `src/types/txtypes/withdraw.go`. -/
structure L2WithdrawTxInfo where
  FromAccountIndex : Int
  ApiKeyIndex : Nat
  AssetIndex : Int
  RouteType : Nat
  Amount : Nat
  ExpiredAt : Int
  Nonce : Int
  Sig : List Nat
  SignedHash : List Char
  deriving Repr

/-- `(*L2TransferTxInfo).Validate` from `transfer.go` lines 33–99: the
ordered short-circuit chain of bounds checks, returning the first violated
constraint (`none` = the Go `nil`). -/
def L2TransferTxInfo.Validate (txInfo : L2TransferTxInfo) : Option TxError :=
  if txInfo.FromAccountIndex < MinAccountIndex + 1 then some TxError.ErrFromAccountIndexTooLow
  else if txInfo.FromAccountIndex > MaxAccountIndex then some TxError.ErrFromAccountIndexTooHigh
  else if txInfo.ApiKeyIndex < MinApiKeyIndex then some TxError.ErrApiKeyIndexTooLow
  else if txInfo.ApiKeyIndex > MaxApiKeyIndex then some TxError.ErrApiKeyIndexTooHigh
  else if txInfo.ToAccountIndex < MinAccountIndex then some TxError.ErrToAccountIndexTooLow
  else if txInfo.ToAccountIndex > MaxAccountIndex then some TxError.ErrToAccountIndexTooHigh
  else if txInfo.AssetIndex < MinAssetIndex then some TxError.ErrAssetIndexTooLow
  else if txInfo.AssetIndex > MaxAssetIndex then some TxError.ErrAssetIndexTooHigh
  else if txInfo.FromRouteType ≠ AssetRouteType_Perps ∧ txInfo.FromRouteType ≠ AssetRouteType_Spot then
    some TxError.ErrRouteTypeInvalid
  else if txInfo.ToRouteType ≠ AssetRouteType_Perps ∧ txInfo.ToRouteType ≠ AssetRouteType_Spot then
    some TxError.ErrRouteTypeInvalid
  else if txInfo.Amount ≤ 0 then some TxError.ErrTransferAmountTooLow
  else if txInfo.Amount > MaxTransferAmount then some TxError.ErrTransferAmountTooHigh
  else if txInfo.USDCFee < 0 then some TxError.ErrTransferFeeNegative
  else if txInfo.USDCFee > MaxTransferAmount then some TxError.ErrTransferFeeTooHigh
  else if txInfo.Nonce < MinNonce then some TxError.ErrNonceTooLow
  else if txInfo.ExpiredAt < 0 ∨ txInfo.ExpiredAt > MaxTimestamp then some TxError.ErrExpiredAtInvalid
  else none

/-- `(*L2WithdrawTxInfo).Validate` from `withdraw.go` lines 22–68. -/
def L2WithdrawTxInfo.Validate (txInfo : L2WithdrawTxInfo) : Option TxError :=
  if txInfo.FromAccountIndex < MinAccountIndex then some TxError.ErrFromAccountIndexTooLow
  else if txInfo.FromAccountIndex > MaxAccountIndex then some TxError.ErrFromAccountIndexTooHigh
  else if txInfo.ApiKeyIndex < MinApiKeyIndex then some TxError.ErrApiKeyIndexTooLow
  else if txInfo.ApiKeyIndex > MaxApiKeyIndex then some TxError.ErrApiKeyIndexTooHigh
  else if txInfo.AssetIndex < MinAssetIndex then some TxError.ErrAssetIndexTooLow
  else if txInfo.AssetIndex > MaxAssetIndex then some TxError.ErrAssetIndexTooHigh
  else if txInfo.RouteType ≠ AssetRouteType_Perps ∧ txInfo.RouteType ≠ AssetRouteType_Spot then
    some TxError.ErrRouteTypeInvalid
  else if txInfo.Amount = 0 then some TxError.ErrWithdrawalAmountTooLow
  else if txInfo.Amount > MaxWithdrawalAmount then some TxError.ErrWithdrawalAmountTooHigh
  else if txInfo.Nonce < MinNonce then some TxError.ErrNonceTooLow
  else if txInfo.ExpiredAt < 0 ∨ txInfo.ExpiredAt > MaxTimestamp then some TxError.ErrExpiredAtInvalid
  else none

/-- The element sequence built by `(*L2TransferTxInfo).Hash`
(`transfer.go` lines 139–155), mirroring the fourteen sequential
`append`s. -/
def transferHashElems (txInfo : L2TransferTxInfo) (lighterChainId : Nat) : List Nat :=
  let elems : List Nat := []
  let elems := elems ++ [gFromUint32 lighterChainId]
  let elems := elems ++ [gFromUint32 TxTypeL2Transfer]
  let elems := elems ++ [gFromInt64 txInfo.Nonce]
  let elems := elems ++ [gFromInt64 txInfo.ExpiredAt]
  let elems := elems ++ [gFromInt64 txInfo.FromAccountIndex]
  let elems := elems ++ [gFromUint32 txInfo.ApiKeyIndex]
  let elems := elems ++ [gFromInt64 txInfo.ToAccountIndex]
  let elems := elems ++ [gFromUint32 (uint32OfInt txInfo.AssetIndex)]
  let elems := elems ++ [gFromUint32 txInfo.FromRouteType]
  let elems := elems ++ [gFromUint32 txInfo.ToRouteType]
  let elems := elems ++ [gFromUint64 (low64 (uint64OfInt txInfo.Amount))]
  let elems := elems ++ [gFromUint64 (high64 (uint64OfInt txInfo.Amount))]
  let elems := elems ++ [gFromUint64 (low64 (uint64OfInt txInfo.USDCFee))]
  let elems := elems ++ [gFromUint64 (high64 (uint64OfInt txInfo.USDCFee))]
  elems

/-- `(*L2TransferTxInfo).Hash` (`transfer.go` lines 138–158): the digest of
the canonical sequence paired with the always-`nil` error. -/
def L2TransferTxInfo.Hash (txInfo : L2TransferTxInfo) (lighterChainId : Nat) :
    Nat × Option String :=
  (HashToQuinticExtension (transferHashElems txInfo lighterChainId), none)

/-- The element sequence built by `(*L2WithdrawTxInfo).Hash`
(`withdraw.go` lines 83–95), mirroring the ten sequential `append`s. -/
def withdrawHashElems (txInfo : L2WithdrawTxInfo) (lighterChainId : Nat) : List Nat :=
  let elems : List Nat := []
  let elems := elems ++ [gFromUint32 lighterChainId]
  let elems := elems ++ [gFromUint32 TxTypeL2Withdraw]
  let elems := elems ++ [gFromInt64 txInfo.Nonce]
  let elems := elems ++ [gFromInt64 txInfo.ExpiredAt]
  let elems := elems ++ [gFromInt64 txInfo.FromAccountIndex]
  let elems := elems ++ [gFromUint32 txInfo.ApiKeyIndex]
  let elems := elems ++ [gFromUint32 (uint32OfInt txInfo.AssetIndex)]
  let elems := elems ++ [gFromUint32 txInfo.RouteType]
  let elems := elems ++ [gFromUint64 (low64 txInfo.Amount)]
  let elems := elems ++ [gFromUint64 (high64 txInfo.Amount)]
  elems

/-- `(*L2WithdrawTxInfo).Hash` (`withdraw.go` lines 82–98). -/
def L2WithdrawTxInfo.Hash (txInfo : L2WithdrawTxInfo) (lighterChainId : Nat) :
    Nat × Option String :=
  (HashToQuinticExtension (withdrawHashElems txInfo lighterChainId), none)

/-- One lowercase hexadecimal digit character, as produced by Go's
`encoding/hex` package (table `0123456789abcdef`). -/
def hexDigitChar : Nat → Char
  | 0 => '0' | 1 => '1' | 2 => '2' | 3 => '3' | 4 => '4'
  | 5 => '5' | 6 => '6' | 7 => '7' | 8 => '8' | 9 => '9'
  | 10 => 'a' | 11 => 'b' | 12 => 'c' | 13 => 'd' | 14 => 'e'
  | _ => 'f'

/-- Go's `hex.EncodeToString`: each byte becomes two lowercase hex digits,
high nibble first. -/
def hexEncodeToString (bytes : List Nat) : List Char :=
  (bytes.map (fun b => [hexDigitChar (b / 16), hexDigitChar (b % 16)])).flatten

/-- Go's `strings.Replace(s, "0x", "", 1)` as used at `transfer.go`
line 115: remove the first occurrence of the two-character pattern. -/
def stripZeroXOnce : List Char → List Char
  | [] => []
  | [c] => [c]
  | c1 :: c2 :: rest =>
    if c1 = '0' ∧ c2 = 'x' then rest
    else c1 :: stripZeroXOnce (c2 :: rest)

/-- Modelled from the spec: the helper `getHex10FromUint64` (declared
outside `src/`) renders a value as a fixed-width 10-hex-digit lowercase
token, left-zero-padded (40-bit capacity). -/
def getHex10FromUint64 (v : Nat) : List Char :=
  (List.range 10).reverse.map (fun i => hexDigitChar (v / 16 ^ i % 16))

/-- Modelled from the spec: the literal text segments of the
`TemplateTransfer` format string (declared outside `src/`) surrounding the
eleven substituted tokens; their content is opaque to every claim and is
modelled as empty segments. -/
def tplSeg (_i : Nat) : List Char := []

/-- `(*L2TransferTxInfo).GetL1SignatureBody` from `transfer.go` lines
113–132: hex-encode the memo, strip a literal `0x` once, then substitute
the eleven tokens into the transfer template in source order. -/
def L2TransferTxInfo.GetL1SignatureBody (txInfo : L2TransferTxInfo) (chainId : Nat) :
    List Char :=
  let hexMemo := hexEncodeToString txInfo.Memo
  let hexMemo := stripZeroXOnce hexMemo
  tplSeg 0 ++ getHex10FromUint64 (uint64OfInt txInfo.Nonce)
    ++ tplSeg 1 ++ getHex10FromUint64 (uint64OfInt txInfo.FromAccountIndex)
    ++ tplSeg 2 ++ getHex10FromUint64 txInfo.FromRouteType
    ++ tplSeg 3 ++ getHex10FromUint64 txInfo.ApiKeyIndex
    ++ tplSeg 4 ++ getHex10FromUint64 (uint64OfInt txInfo.ToAccountIndex)
    ++ tplSeg 5 ++ getHex10FromUint64 txInfo.ToRouteType
    ++ tplSeg 6 ++ getHex10FromUint64 (uint64OfInt txInfo.AssetIndex)
    ++ tplSeg 7 ++ getHex10FromUint64 (uint64OfInt txInfo.Amount)
    ++ tplSeg 8 ++ getHex10FromUint64 (uint64OfInt txInfo.USDCFee)
    ++ tplSeg 9 ++ getHex10FromUint64 chainId
    ++ tplSeg 10 ++ hexMemo ++ tplSeg 11

/-- A character is a lowercase hexadecimal digit. -/
def isLowerHexDigit (c : Char) : Bool :=
  (('0' ≤ c) && (c ≤ '9')) || (('a' ≤ c) && (c ≤ 'f'))

/-- A transfer request with every field inside its declared bounds, used to
instantiate the hypothetical theorems on concrete inputs. -/
def sampleTransfer : L2TransferTxInfo :=
  { FromAccountIndex := 3
    ApiKeyIndex := 0
    ToAccountIndex := 0
    AssetIndex := 0
    FromRouteType := 0
    ToRouteType := 1
    Amount := 5
    USDCFee := 0
    Memo := List.replicate 32 0
    ExpiredAt := 100
    Nonce := 7
    Sig := []
    L1Sig := []
    SignedHash := [] }

/-- A withdrawal request sharing every common field value with
`sampleTransfer`, with every field inside its declared bounds. -/
def sampleWithdraw : L2WithdrawTxInfo :=
  { FromAccountIndex := 3
    ApiKeyIndex := 0
    AssetIndex := 0
    RouteType := 1
    Amount := 5
    ExpiredAt := 100
    Nonce := 7
    Sig := []
    SignedHash := [] }

theorem skipCheck {c : Prop} [Decidable c] {α : Sort u} {a b : α} (hc : ¬c) :
    (if c then a else b) = b := if_neg hc

theorem takeCheck {c : Prop} [Decidable c] {α : Sort u} {a b : α} (hc : c) :
    (if c then a else b) = a := if_pos hc

theorem transferHashElems_eq (tx : L2TransferTxInfo) (c : Nat) :
    transferHashElems tx c =
      [gFromUint32 c, gFromUint32 TxTypeL2Transfer, gFromInt64 tx.Nonce,
       gFromInt64 tx.ExpiredAt, gFromInt64 tx.FromAccountIndex, gFromUint32 tx.ApiKeyIndex,
       gFromInt64 tx.ToAccountIndex, gFromUint32 (uint32OfInt tx.AssetIndex),
       gFromUint32 tx.FromRouteType, gFromUint32 tx.ToRouteType,
       gFromUint64 (low64 (uint64OfInt tx.Amount)), gFromUint64 (high64 (uint64OfInt tx.Amount)),
       gFromUint64 (low64 (uint64OfInt tx.USDCFee)),
       gFromUint64 (high64 (uint64OfInt tx.USDCFee))] := rfl

theorem withdrawHashElems_eq (w : L2WithdrawTxInfo) (c : Nat) :
    withdrawHashElems w c =
      [gFromUint32 c, gFromUint32 TxTypeL2Withdraw, gFromInt64 w.Nonce,
       gFromInt64 w.ExpiredAt, gFromInt64 w.FromAccountIndex, gFromUint32 w.ApiKeyIndex,
       gFromUint32 (uint32OfInt w.AssetIndex), gFromUint32 w.RouteType,
       gFromUint64 (low64 w.Amount), gFromUint64 (high64 w.Amount)] := rfl

theorem low64_eq_mod (v : Nat) : low64 v = v % 2 ^ 32 := by
  have h : (0xFFFFFFFF : Nat) = 2 ^ 32 - 1 := by norm_num
  rw [low64, h, Nat.and_pow_two_sub_one_eq_mod]

theorem high64_eq_div (v : Nat) : high64 v = v / 2 ^ 32 := by
  rw [high64, Nat.shiftRight_eq_div_pow]

theorem goldilocksP_pos : 0 < goldilocksP := by norm_num [goldilocksP]

theorem two_pow_32_lt_goldilocksP : 2 ^ 32 < goldilocksP := by norm_num [goldilocksP]

theorem digits_hashToQuinticExtension (l : List Nat) :
    Nat.digits (goldilocksP + 1) (HashToQuinticExtension l) =
      l.map (fun x => x % goldilocksP + 1) := by
  apply Nat.digits_ofDigits
  · have := goldilocksP_pos; omega
  · intro d hd
    simp only [List.mem_map] at hd
    obtain ⟨x, _, rfl⟩ := hd
    have := Nat.mod_lt x goldilocksP_pos
    omega
  · intro hne
    have hmem := List.getLast_mem hne
    simp only [List.mem_map] at hmem
    obtain ⟨x, _, hx⟩ := hmem
    omega

theorem map_mod_succ_injOn :
    ∀ (l1 l2 : List Nat), (∀ x ∈ l1, x < goldilocksP) → (∀ x ∈ l2, x < goldilocksP) →
      l1.map (fun x => x % goldilocksP + 1) = l2.map (fun x => x % goldilocksP + 1) →
      l1 = l2 := by
  intro l1
  induction l1 with
  | nil =>
    intro l2 _ _ h
    cases l2 with
    | nil => rfl
    | cons b t2 => simp at h
  | cons a t ih =>
    intro l2 h1 h2 h
    cases l2 with
    | nil => simp at h
    | cons b t2 =>
      simp only [List.map_cons, List.cons.injEq] at h
      have ha : a < goldilocksP := h1 a (by simp)
      have hb : b < goldilocksP := h2 b (by simp)
      have hab : a = b := by
        have h' := h.1
        rw [Nat.mod_eq_of_lt ha, Nat.mod_eq_of_lt hb] at h'
        omega
      subst hab
      rw [ih t2 (fun x hx => h1 x (by simp [hx])) (fun x hx => h2 x (by simp [hx])) h.2]

theorem hashToQuinticExtension_inj (l1 l2 : List Nat)
    (h1 : ∀ x ∈ l1, x < goldilocksP) (h2 : ∀ x ∈ l2, x < goldilocksP)
    (h : HashToQuinticExtension l1 = HashToQuinticExtension l2) : l1 = l2 := by
  apply map_mod_succ_injOn l1 l2 h1 h2
  rw [← digits_hashToQuinticExtension l1, ← digits_hashToQuinticExtension l2, h]

theorem transferHashElems_lt (tx : L2TransferTxInfo) (c : Nat) :
    ∀ x ∈ transferHashElems tx c, x < goldilocksP := by
  intro x hx
  rw [transferHashElems_eq] at hx
  simp only [List.mem_cons, List.not_mem_nil, or_false] at hx
  have h32 := two_pow_32_lt_goldilocksP
  have hp := goldilocksP_pos
  rcases hx with rfl|rfl|rfl|rfl|rfl|rfl|rfl|rfl|rfl|rfl|rfl|rfl|rfl|rfl <;>
    simp only [gFromUint32, gFromInt64, gFromUint64] <;>
    first
      | exact lt_trans (Nat.mod_lt _ (by norm_num)) h32
      | exact Nat.mod_lt _ hp

theorem withdrawHashElems_lt (w : L2WithdrawTxInfo) (c : Nat) :
    ∀ x ∈ withdrawHashElems w c, x < goldilocksP := by
  intro x hx
  rw [withdrawHashElems_eq] at hx
  simp only [List.mem_cons, List.not_mem_nil, or_false] at hx
  have h32 := two_pow_32_lt_goldilocksP
  have hp := goldilocksP_pos
  rcases hx with rfl|rfl|rfl|rfl|rfl|rfl|rfl|rfl|rfl|rfl <;>
    simp only [gFromUint32, gFromInt64, gFromUint64] <;>
    first
      | exact lt_trans (Nat.mod_lt _ (by norm_num)) h32
      | exact Nat.mod_lt _ hp

theorem transferHash_fst (tx : L2TransferTxInfo) (c : Nat) :
    (tx.Hash c).1 = HashToQuinticExtension (transferHashElems tx c) := rfl

theorem withdrawHash_fst (w : L2WithdrawTxInfo) (c : Nat) :
    (w.Hash c).1 = HashToQuinticExtension (withdrawHashElems w c) := rfl

/-- C1: for every transfer transaction and every chain id, the canonical
preimage built by `Hash` is exactly the fourteen field elements
chain tag, type tag (`TxTypeL2Transfer`), nonce, expiry, from-account,
API-key index, to-account, asset index, from-route, to-route, amount low
limb, amount high limb, fee low limb, fee high limb — in that order — and
the digest is the sponge hash of exactly that sequence. -/
theorem transfer_hash_canonical_preimage (tx : L2TransferTxInfo) (chainId : Nat) :
    transferHashElems tx chainId =
      [gFromUint32 chainId, gFromUint32 TxTypeL2Transfer, gFromInt64 tx.Nonce,
       gFromInt64 tx.ExpiredAt, gFromInt64 tx.FromAccountIndex, gFromUint32 tx.ApiKeyIndex,
       gFromInt64 tx.ToAccountIndex, gFromUint32 (uint32OfInt tx.AssetIndex),
       gFromUint32 tx.FromRouteType, gFromUint32 tx.ToRouteType,
       gFromUint64 (uint64OfInt tx.Amount % 2 ^ 32), gFromUint64 (uint64OfInt tx.Amount / 2 ^ 32),
       gFromUint64 (uint64OfInt tx.USDCFee % 2 ^ 32),
       gFromUint64 (uint64OfInt tx.USDCFee / 2 ^ 32)] ∧
    (transferHashElems tx chainId).length = 14 ∧
    tx.Hash chainId = (HashToQuinticExtension (transferHashElems tx chainId), none) := by
  refine ⟨?_, rfl, rfl⟩
  rw [transferHashElems_eq, low64_eq_mod, low64_eq_mod, high64_eq_div, high64_eq_div]

/-- C2: for every withdrawal transaction and every chain id, the canonical
preimage built by `Hash` is exactly the ten field elements chain tag, type
tag (`TxTypeL2Withdraw`), nonce, expiry, from-account, API-key index,
asset index, route, amount low limb, amount high limb — in that order —
and the digest is the sponge hash of exactly that sequence. -/
theorem withdraw_hash_canonical_preimage (w : L2WithdrawTxInfo) (chainId : Nat) :
    withdrawHashElems w chainId =
      [gFromUint32 chainId, gFromUint32 TxTypeL2Withdraw, gFromInt64 w.Nonce,
       gFromInt64 w.ExpiredAt, gFromInt64 w.FromAccountIndex, gFromUint32 w.ApiKeyIndex,
       gFromUint32 (uint32OfInt w.AssetIndex), gFromUint32 w.RouteType,
       gFromUint64 (w.Amount % 2 ^ 32), gFromUint64 (w.Amount / 2 ^ 32)] ∧
    (withdrawHashElems w chainId).length = 10 ∧
    w.Hash chainId = (HashToQuinticExtension (withdrawHashElems w chainId), none) := by
  refine ⟨?_, rfl, rfl⟩
  rw [withdrawHashElems_eq, low64_eq_mod, high64_eq_div]

/-- C3: a transfer and a withdrawal with identical shared field values
produce different canonical preimages and different digests (the type tag
at the second preimage position differs), and changing the chain
identifier changes the digest of a fixed transaction. -/
theorem transfer_withdraw_domain_separation :
    (∀ (t : L2TransferTxInfo) (w : L2WithdrawTxInfo) (chainId : Nat),
      t.Nonce = w.Nonce → t.ExpiredAt = w.ExpiredAt →
      t.FromAccountIndex = w.FromAccountIndex → t.ApiKeyIndex = w.ApiKeyIndex →
      t.AssetIndex = w.AssetIndex → t.Amount = (w.Amount : Int) →
      transferHashElems t chainId ≠ withdrawHashElems w chainId ∧
      (t.Hash chainId).1 ≠ (w.Hash chainId).1) ∧
    (∀ (t : L2TransferTxInfo) (c1 c2 : Nat), c1 < 2 ^ 32 → c2 < 2 ^ 32 → c1 ≠ c2 →
      (t.Hash c1).1 ≠ (t.Hash c2).1) := by
  constructor
  · intro t w chainId _ _ _ _ _ _
    have hne : transferHashElems t chainId ≠ withdrawHashElems w chainId := by
      intro heq
      rw [transferHashElems_eq, withdrawHashElems_eq] at heq
      simp only [List.cons.injEq] at heq
      exact absurd heq.2.1 (by decide)
    refine ⟨hne, fun hdig => hne ?_⟩
    rw [transferHash_fst, withdrawHash_fst] at hdig
    exact hashToQuinticExtension_inj _ _ (transferHashElems_lt t chainId)
      (withdrawHashElems_lt w chainId) hdig
  · intro t c1 c2 hc1 hc2 hne hdig
    rw [transferHash_fst, transferHash_fst] at hdig
    have heq := hashToQuinticExtension_inj _ _ (transferHashElems_lt t c1)
      (transferHashElems_lt t c2) hdig
    rw [transferHashElems_eq, transferHashElems_eq] at heq
    simp only [List.cons.injEq, gFromUint32] at heq
    rw [Nat.mod_eq_of_lt hc1, Nat.mod_eq_of_lt hc2] at heq
    exact hne heq.1

/-- Witness for C3 at concrete inputs: the sample transfer and sample
withdrawal share every common field value, yet their preimages and digests
differ, and hashing the sample transfer under chain id 1 and chain id 2
gives different digests. -/
theorem transfer_withdraw_domain_separation_witness :
    (transferHashElems sampleTransfer 1 ≠ withdrawHashElems sampleWithdraw 1 ∧
      (sampleTransfer.Hash 1).1 ≠ (sampleWithdraw.Hash 1).1) ∧
    (sampleTransfer.Hash 1).1 ≠ (sampleTransfer.Hash 2).1 :=
  ⟨transfer_withdraw_domain_separation.1 sampleTransfer sampleWithdraw 1
      rfl rfl rfl rfl rfl rfl,
    transfer_withdraw_domain_separation.2 sampleTransfer 1 2
      (by norm_num) (by norm_num) (by norm_num)⟩

/-- C7: for every 64-bit unsigned value, the low limb `v & 0xFFFFFFFF` and
the high limb `v >> 32` computed by the preimage builders reconstruct `v`
exactly via `low + (high << 32)`, the low limb being `v mod 2^32` and the
high limb `v div 2^32`. -/
theorem limb_split_roundtrip (v : Nat) (_hv : v < 2 ^ 64) :
    low64 v + (high64 v <<< 32) = v ∧ low64 v = v % 2 ^ 32 ∧ high64 v = v / 2 ^ 32 := by
  refine ⟨?_, low64_eq_mod v, high64_eq_div v⟩
  rw [low64_eq_mod, high64_eq_div, Nat.shiftLeft_eq]
  exact Nat.mod_add_div' v (2 ^ 32)

/-- Witness for C7 at the claim's particular values
`0, 1, 2^32 - 1, 2^32, 2^64 - 1`. -/
theorem limb_split_roundtrip_witness :
    (low64 0 + (high64 0 <<< 32) = 0) ∧
    (low64 1 + (high64 1 <<< 32) = 1) ∧
    (low64 (2 ^ 32 - 1) + (high64 (2 ^ 32 - 1) <<< 32) = 2 ^ 32 - 1) ∧
    (low64 (2 ^ 32) + (high64 (2 ^ 32) <<< 32) = 2 ^ 32) ∧
    (low64 (2 ^ 64 - 1) + (high64 (2 ^ 64 - 1) <<< 32) = 2 ^ 64 - 1) :=
  ⟨(limb_split_roundtrip 0 (by norm_num)).1,
    (limb_split_roundtrip 1 (by norm_num)).1,
    (limb_split_roundtrip (2 ^ 32 - 1) (by norm_num)).1,
    (limb_split_roundtrip (2 ^ 32) (by norm_num)).1,
    (limb_split_roundtrip (2 ^ 64 - 1) (by norm_num)).1⟩

/-- C8: `Hash` is a deterministic function of the field values and the
chain id: two calls on identical field values and identical chain ids
return the identical digest, for transfers and withdrawals alike. -/
theorem hash_deterministic :
    (∀ (t1 t2 : L2TransferTxInfo) (c1 c2 : Nat),
      t1.FromAccountIndex = t2.FromAccountIndex → t1.ApiKeyIndex = t2.ApiKeyIndex →
      t1.ToAccountIndex = t2.ToAccountIndex → t1.AssetIndex = t2.AssetIndex →
      t1.FromRouteType = t2.FromRouteType → t1.ToRouteType = t2.ToRouteType →
      t1.Amount = t2.Amount → t1.USDCFee = t2.USDCFee →
      t1.ExpiredAt = t2.ExpiredAt → t1.Nonce = t2.Nonce → c1 = c2 →
      t1.Hash c1 = t2.Hash c2) ∧
    (∀ (w1 w2 : L2WithdrawTxInfo) (c1 c2 : Nat),
      w1.FromAccountIndex = w2.FromAccountIndex → w1.ApiKeyIndex = w2.ApiKeyIndex →
      w1.AssetIndex = w2.AssetIndex → w1.RouteType = w2.RouteType →
      w1.Amount = w2.Amount → w1.ExpiredAt = w2.ExpiredAt → w1.Nonce = w2.Nonce →
      c1 = c2 → w1.Hash c1 = w2.Hash c2) := by
  constructor
  · intro t1 t2 c1 c2 h1 h2 h3 h4 h5 h6 h7 h8 h9 h10 hc
    subst hc
    unfold L2TransferTxInfo.Hash
    rw [transferHashElems_eq, transferHashElems_eq, h1, h2, h3, h4, h5, h6, h7, h8, h9, h10]
  · intro w1 w2 c1 c2 h1 h2 h3 h4 h5 h6 h7 hc
    subst hc
    unfold L2WithdrawTxInfo.Hash
    rw [withdrawHashElems_eq, withdrawHashElems_eq, h1, h2, h3, h4, h5, h6, h7]

/-- Witness for C8: hashing the sample transactions twice yields equal
results. -/
theorem hash_deterministic_witness :
    sampleTransfer.Hash 1 = sampleTransfer.Hash 1 ∧
    sampleWithdraw.Hash 1 = sampleWithdraw.Hash 1 :=
  ⟨hash_deterministic.1 sampleTransfer sampleTransfer 1 1
      rfl rfl rfl rfl rfl rfl rfl rfl rfl rfl rfl,
    hash_deterministic.2 sampleWithdraw sampleWithdraw 1 1
      rfl rfl rfl rfl rfl rfl rfl rfl⟩

/-- C9: `Hash` never returns a non-nil error — its error result is `none`
for every transaction (validated or not) and every chain id, for transfers
and withdrawals alike. -/
theorem hash_never_errors :
    (∀ (tx : L2TransferTxInfo) (chainId : Nat), (tx.Hash chainId).2 = none) ∧
    (∀ (w : L2WithdrawTxInfo) (chainId : Nat), (w.Hash chainId).2 = none) :=
  ⟨fun _ _ => rfl, fun _ _ => rfl⟩

/-- C4: a transfer whose other fields satisfy their bounds is rejected with
the amount-too-low error at `Amount = 0`, rejected with the
amount-too-high error at `Amount = MaxTransferAmount + 1`, and accepted
for every `Amount` in `(0, MaxTransferAmount]`. -/
theorem transfer_validate_amount_bounds (tx : L2TransferTxInfo)
    (hfa1 : MinAccountIndex + 1 ≤ tx.FromAccountIndex) (hfa2 : tx.FromAccountIndex ≤ MaxAccountIndex)
    (hak1 : MinApiKeyIndex ≤ tx.ApiKeyIndex) (hak2 : tx.ApiKeyIndex ≤ MaxApiKeyIndex)
    (hta1 : MinAccountIndex ≤ tx.ToAccountIndex) (hta2 : tx.ToAccountIndex ≤ MaxAccountIndex)
    (has1 : MinAssetIndex ≤ tx.AssetIndex) (has2 : tx.AssetIndex ≤ MaxAssetIndex)
    (hfr : tx.FromRouteType = AssetRouteType_Perps ∨ tx.FromRouteType = AssetRouteType_Spot)
    (htr : tx.ToRouteType = AssetRouteType_Perps ∨ tx.ToRouteType = AssetRouteType_Spot)
    (hfee1 : 0 ≤ tx.USDCFee) (hfee2 : tx.USDCFee ≤ MaxTransferAmount)
    (hn : MinNonce ≤ tx.Nonce) (he1 : 0 ≤ tx.ExpiredAt) (he2 : tx.ExpiredAt ≤ MaxTimestamp) :
    (tx.Amount = 0 → tx.Validate = some TxError.ErrTransferAmountTooLow) ∧
    (tx.Amount = MaxTransferAmount + 1 → tx.Validate = some TxError.ErrTransferAmountTooHigh) ∧
    (0 < tx.Amount → tx.Amount ≤ MaxTransferAmount → tx.Validate = none) := by
  simp only [MinAccountIndex, MaxAccountIndex, MinApiKeyIndex, MaxApiKeyIndex, MinAssetIndex,
    MaxAssetIndex, AssetRouteType_Perps, AssetRouteType_Spot, MaxTransferAmount, MinNonce,
    MaxTimestamp] at *
  refine ⟨fun h0 => ?_, fun hhi => ?_, fun hlo hhi => ?_⟩ <;>
    · unfold L2TransferTxInfo.Validate
      simp only [MinAccountIndex, MaxAccountIndex, MinApiKeyIndex, MaxApiKeyIndex, MinAssetIndex,
        MaxAssetIndex, AssetRouteType_Perps, AssetRouteType_Spot, MaxTransferAmount, MinNonce,
        MaxTimestamp]
      rw [skipCheck (by omega), skipCheck (by omega), skipCheck (by omega), skipCheck (by omega),
        skipCheck (by omega), skipCheck (by omega), skipCheck (by omega), skipCheck (by omega),
        skipCheck (by omega), skipCheck (by omega)]
      first
        | rw [takeCheck (by omega)]
        | (rw [skipCheck (by omega)]; first
            | rw [takeCheck (by omega)]
            | (rw [skipCheck (by omega), skipCheck (by omega), skipCheck (by omega), skipCheck (by omega),
                skipCheck (by omega)]))

/-- Witness for C4: the in-bounds sample transfer validates, and setting
its amount to `0` or to `MaxTransferAmount + 1` produces exactly the
too-low and too-high errors. -/
theorem transfer_validate_amount_bounds_witness :
    sampleTransfer.Validate = none ∧
    ({ sampleTransfer with Amount := 0 } : L2TransferTxInfo).Validate =
      some TxError.ErrTransferAmountTooLow ∧
    ({ sampleTransfer with Amount := MaxTransferAmount + 1 } : L2TransferTxInfo).Validate =
      some TxError.ErrTransferAmountTooHigh :=
  ⟨(transfer_validate_amount_bounds sampleTransfer (by decide) (by decide) (by decide) (by decide)
      (by decide) (by decide) (by decide) (by decide) (Or.inl (by decide)) (Or.inr (by decide))
      (by decide) (by decide) (by decide) (by decide) (by decide)).2.2 (by decide) (by decide),
    (transfer_validate_amount_bounds { sampleTransfer with Amount := 0 } (by decide) (by decide)
      (by decide) (by decide) (by decide) (by decide) (by decide) (by decide)
      (Or.inl (by decide)) (Or.inr (by decide)) (by decide) (by decide) (by decide) (by decide)
      (by decide)).1 rfl,
    (transfer_validate_amount_bounds { sampleTransfer with Amount := MaxTransferAmount + 1 }
      (by decide) (by decide) (by decide) (by decide) (by decide) (by decide) (by decide)
      (by decide) (Or.inl (by decide)) (Or.inr (by decide)) (by decide) (by decide) (by decide)
      (by decide) (by decide)).2.1 rfl⟩

/-- C5: a withdrawal whose other fields satisfy their bounds fails with the
route-invalid error exactly when `RouteType` is neither
`AssetRouteType_Perps` nor `AssetRouteType_Spot`, and validates for either
defined constant. -/
theorem withdraw_validate_route_enumeration (w : L2WithdrawTxInfo)
    (hfa1 : MinAccountIndex ≤ w.FromAccountIndex) (hfa2 : w.FromAccountIndex ≤ MaxAccountIndex)
    (hak1 : MinApiKeyIndex ≤ w.ApiKeyIndex) (hak2 : w.ApiKeyIndex ≤ MaxApiKeyIndex)
    (has1 : MinAssetIndex ≤ w.AssetIndex) (has2 : w.AssetIndex ≤ MaxAssetIndex)
    (ham1 : w.Amount ≠ 0) (ham2 : w.Amount ≤ MaxWithdrawalAmount)
    (hn : MinNonce ≤ w.Nonce) (he1 : 0 ≤ w.ExpiredAt) (he2 : w.ExpiredAt ≤ MaxTimestamp) :
    (w.Validate = some TxError.ErrRouteTypeInvalid ↔
      (w.RouteType ≠ AssetRouteType_Perps ∧ w.RouteType ≠ AssetRouteType_Spot)) ∧
    ((w.RouteType = AssetRouteType_Perps ∨ w.RouteType = AssetRouteType_Spot) →
      w.Validate = none) := by
  simp only [MinAccountIndex, MaxAccountIndex, MinApiKeyIndex, MaxApiKeyIndex, MinAssetIndex,
    MaxAssetIndex, MaxWithdrawalAmount, MinNonce, MaxTimestamp] at *
  have hok : (w.RouteType = AssetRouteType_Perps ∨ w.RouteType = AssetRouteType_Spot) →
      w.Validate = none := by
    intro hr
    unfold L2WithdrawTxInfo.Validate
    simp only [MinAccountIndex, MaxAccountIndex, MinApiKeyIndex, MaxApiKeyIndex, MinAssetIndex,
      MaxAssetIndex, AssetRouteType_Perps, AssetRouteType_Spot, MaxWithdrawalAmount, MinNonce,
      MaxTimestamp] at hr ⊢
    rw [skipCheck (by omega), skipCheck (by omega), skipCheck (by omega), skipCheck (by omega),
      skipCheck (by omega), skipCheck (by omega), skipCheck (by omega), skipCheck (by omega),
      skipCheck (by omega), skipCheck (by omega), skipCheck (by omega)]
  refine ⟨⟨fun hv => ?_, fun hbad => ?_⟩, hok⟩
  · by_contra hcon
    push_neg at hcon
    rcases Decidable.em (w.RouteType = AssetRouteType_Perps) with hp|hp
    · rw [hok (Or.inl hp)] at hv
      exact Option.noConfusion hv
    · rw [hok (Or.inr (hcon hp))] at hv
      exact Option.noConfusion hv
  · unfold L2WithdrawTxInfo.Validate
    simp only [MinAccountIndex, MaxAccountIndex, MinApiKeyIndex, MaxApiKeyIndex, MinAssetIndex,
      MaxAssetIndex, AssetRouteType_Perps, AssetRouteType_Spot, MaxWithdrawalAmount, MinNonce,
      MaxTimestamp] at hbad ⊢
    rw [skipCheck (by omega), skipCheck (by omega), skipCheck (by omega), skipCheck (by omega),
      skipCheck (by omega), skipCheck (by omega), takeCheck (by omega)]

/-- Witness for C5: the sample withdrawal (route `Spot`) validates, with
route `Perps` it validates, and with the undefined route value `7` it
fails with exactly the route-invalid error. -/
theorem withdraw_validate_route_enumeration_witness :
    sampleWithdraw.Validate = none ∧
    ({ sampleWithdraw with RouteType := 0 } : L2WithdrawTxInfo).Validate = none ∧
    ({ sampleWithdraw with RouteType := 7 } : L2WithdrawTxInfo).Validate =
      some TxError.ErrRouteTypeInvalid :=
  ⟨(withdraw_validate_route_enumeration sampleWithdraw (by decide) (by decide) (by decide)
      (by decide) (by decide) (by decide) (by decide) (by decide) (by decide) (by decide)
      (by decide)).2 (Or.inr (by decide)),
    (withdraw_validate_route_enumeration { sampleWithdraw with RouteType := 0 } (by decide)
      (by decide) (by decide) (by decide) (by decide) (by decide) (by decide) (by decide)
      (by decide) (by decide) (by decide)).2 (Or.inl (by decide)),
    (withdraw_validate_route_enumeration { sampleWithdraw with RouteType := 7 } (by decide)
      (by decide) (by decide) (by decide) (by decide) (by decide) (by decide) (by decide)
      (by decide) (by decide) (by decide)).1.mpr (by decide)⟩

/-- C6: the transfer `Validate` rejects `FromAccountIndex` strictly below
`MinAccountIndex + 1` with the from-account-too-low error, yet accepts
`ToAccountIndex` down to `MinAccountIndex`, and the withdrawal `Validate`
accepts `FromAccountIndex` down to `MinAccountIndex`: the transfer sender
minimum exceeds both other minimums by exactly one. -/
theorem account_index_minimum_asymmetry :
    (∀ tx : L2TransferTxInfo, tx.FromAccountIndex < MinAccountIndex + 1 →
      tx.Validate = some TxError.ErrFromAccountIndexTooLow) ∧
    (∀ tx : L2TransferTxInfo,
      MinAccountIndex + 1 ≤ tx.FromAccountIndex → tx.FromAccountIndex ≤ MaxAccountIndex →
      tx.ApiKeyIndex ≤ MaxApiKeyIndex → tx.ToAccountIndex = MinAccountIndex →
      MinAssetIndex ≤ tx.AssetIndex → tx.AssetIndex ≤ MaxAssetIndex →
      (tx.FromRouteType = AssetRouteType_Perps ∨ tx.FromRouteType = AssetRouteType_Spot) →
      (tx.ToRouteType = AssetRouteType_Perps ∨ tx.ToRouteType = AssetRouteType_Spot) →
      0 < tx.Amount → tx.Amount ≤ MaxTransferAmount →
      0 ≤ tx.USDCFee → tx.USDCFee ≤ MaxTransferAmount →
      MinNonce ≤ tx.Nonce → 0 ≤ tx.ExpiredAt → tx.ExpiredAt ≤ MaxTimestamp →
      tx.Validate = none) ∧
    (∀ w : L2WithdrawTxInfo,
      w.FromAccountIndex = MinAccountIndex →
      w.ApiKeyIndex ≤ MaxApiKeyIndex →
      MinAssetIndex ≤ w.AssetIndex → w.AssetIndex ≤ MaxAssetIndex →
      (w.RouteType = AssetRouteType_Perps ∨ w.RouteType = AssetRouteType_Spot) →
      w.Amount ≠ 0 → w.Amount ≤ MaxWithdrawalAmount →
      MinNonce ≤ w.Nonce → 0 ≤ w.ExpiredAt → w.ExpiredAt ≤ MaxTimestamp →
      w.Validate = none) := by
  refine ⟨?_, ?_, ?_⟩
  · intro tx h
    unfold L2TransferTxInfo.Validate
    rw [takeCheck h]
  · intro tx h1 h2 h3 h4 h5 h6 h7 h8 h9 h10 h11 h12 h13 h14 h15
    unfold L2TransferTxInfo.Validate
    simp only [MinAccountIndex, MaxAccountIndex, MinApiKeyIndex, MaxApiKeyIndex, MinAssetIndex,
      MaxAssetIndex, AssetRouteType_Perps, AssetRouteType_Spot, MaxTransferAmount, MinNonce,
      MaxTimestamp] at *
    rw [skipCheck (by omega), skipCheck (by omega), skipCheck (by omega), skipCheck (by omega),
      skipCheck (by omega), skipCheck (by omega), skipCheck (by omega), skipCheck (by omega),
      skipCheck (by omega), skipCheck (by omega), skipCheck (by omega), skipCheck (by omega),
      skipCheck (by omega), skipCheck (by omega), skipCheck (by omega), skipCheck (by omega)]
  · intro w h1 h2 h3 h4 h5 h6 h7 h8 h9 h10
    unfold L2WithdrawTxInfo.Validate
    simp only [MinAccountIndex, MaxAccountIndex, MinApiKeyIndex, MaxApiKeyIndex, MinAssetIndex,
      MaxAssetIndex, AssetRouteType_Perps, AssetRouteType_Spot, MaxWithdrawalAmount, MinNonce,
      MaxTimestamp] at *
    rw [skipCheck (by omega), skipCheck (by omega), skipCheck (by omega), skipCheck (by omega),
      skipCheck (by omega), skipCheck (by omega), skipCheck (by omega), skipCheck (by omega),
      skipCheck (by omega), skipCheck (by omega), skipCheck (by omega)]

/-- Witness for C6: a transfer from the zero/system account is rejected
with the from-account-too-low error, the sample transfer whose recipient
is the zero account validates, and a withdrawal from the zero account
validates. -/
theorem account_index_minimum_asymmetry_witness :
    ({ sampleTransfer with FromAccountIndex := 0 } : L2TransferTxInfo).Validate =
      some TxError.ErrFromAccountIndexTooLow ∧
    sampleTransfer.Validate = none ∧
    ({ sampleWithdraw with FromAccountIndex := 0 } : L2WithdrawTxInfo).Validate = none :=
  ⟨account_index_minimum_asymmetry.1 { sampleTransfer with FromAccountIndex := 0 } (by decide),
    account_index_minimum_asymmetry.2.1 sampleTransfer (by decide) (by decide) (by decide)
      (by decide) (by decide) (by decide) (Or.inl (by decide)) (Or.inr (by decide)) (by decide)
      (by decide) (by decide) (by decide) (by decide) (by decide) (by decide),
    account_index_minimum_asymmetry.2.2 { sampleWithdraw with FromAccountIndex := 0 } (by decide)
      (by decide) (by decide) (by decide) (Or.inr (by decide)) (by decide) (by decide) (by decide)
      (by decide) (by decide)⟩

theorem hexDigitChar_isLowerHex (n : Nat) : isLowerHexDigit (hexDigitChar n) = true := by
  unfold hexDigitChar
  split <;> decide

theorem hexDigitChar_ne_x (n : Nat) : hexDigitChar n ≠ 'x' := by
  unfold hexDigitChar
  split <;> decide

theorem hexEncodeToString_length (bytes : List Nat) :
    (hexEncodeToString bytes).length = 2 * bytes.length := by
  induction bytes with
  | nil => rfl
  | cons b t ih =>
    simp only [hexEncodeToString, List.map_cons, List.flatten_cons, List.length_append,
      List.length_cons, List.length_nil] at ih ⊢
    omega

theorem mem_hexEncodeToString {c : Char} {bytes : List Nat}
    (h : c ∈ hexEncodeToString bytes) : ∃ n, c = hexDigitChar n := by
  simp only [hexEncodeToString, List.mem_flatten, List.mem_map] at h
  obtain ⟨l, ⟨b, _, rfl⟩, hc⟩ := h
  simp only [List.mem_cons, List.not_mem_nil, or_false] at hc
  rcases hc with rfl | rfl
  · exact ⟨b / 16, rfl⟩
  · exact ⟨b % 16, rfl⟩

theorem stripZeroXOnce_of_no_x (l : List Char) (h : ∀ c ∈ l, c ≠ 'x') :
    stripZeroXOnce l = l := by
  induction l with
  | nil => rfl
  | cons a t ih =>
    cases t with
    | nil => rfl
    | cons b t2 =>
      have hb : b ≠ 'x' := h b (by simp)
      have hcond : ¬(a = '0' ∧ b = 'x') := fun hc => hb hc.2
      show stripZeroXOnce (a :: b :: t2) = a :: b :: t2
      simp only [stripZeroXOnce]
      rw [skipCheck hcond, ih (fun c hc => h c (List.mem_cons_of_mem a hc))]

/-- C10: the memo token substituted into the string built by
`GetL1SignatureBody` is exactly the 64-character lowercase hexadecimal
encoding of the 32-byte memo: the `0x`-stripping step never alters it,
because a hexadecimal encoding contains no `x` character, so the rendered
body carries the unmodified encoding. -/
theorem transfer_l1_memo_token (tx : L2TransferTxInfo) (chainId : Nat)
    (hlen : tx.Memo.length = 32) (_hbytes : ∀ b ∈ tx.Memo, b < 256) :
    stripZeroXOnce (hexEncodeToString tx.Memo) = hexEncodeToString tx.Memo ∧
    (hexEncodeToString tx.Memo).length = 64 ∧
    (∀ c ∈ hexEncodeToString tx.Memo, isLowerHexDigit c = true) ∧
    tx.GetL1SignatureBody chainId =
      tplSeg 0 ++ getHex10FromUint64 (uint64OfInt tx.Nonce)
        ++ tplSeg 1 ++ getHex10FromUint64 (uint64OfInt tx.FromAccountIndex)
        ++ tplSeg 2 ++ getHex10FromUint64 tx.FromRouteType
        ++ tplSeg 3 ++ getHex10FromUint64 tx.ApiKeyIndex
        ++ tplSeg 4 ++ getHex10FromUint64 (uint64OfInt tx.ToAccountIndex)
        ++ tplSeg 5 ++ getHex10FromUint64 tx.ToRouteType
        ++ tplSeg 6 ++ getHex10FromUint64 (uint64OfInt tx.AssetIndex)
        ++ tplSeg 7 ++ getHex10FromUint64 (uint64OfInt tx.Amount)
        ++ tplSeg 8 ++ getHex10FromUint64 (uint64OfInt tx.USDCFee)
        ++ tplSeg 9 ++ getHex10FromUint64 chainId
        ++ tplSeg 10 ++ hexEncodeToString tx.Memo ++ tplSeg 11 := by
  have hnox : ∀ c ∈ hexEncodeToString tx.Memo, c ≠ 'x' := by
    intro c hc
    obtain ⟨n, rfl⟩ := mem_hexEncodeToString hc
    exact hexDigitChar_ne_x n
  have hstrip := stripZeroXOnce_of_no_x _ hnox
  refine ⟨hstrip, ?_, ?_, ?_⟩
  · rw [hexEncodeToString_length, hlen]
  · intro c hc
    obtain ⟨n, rfl⟩ := mem_hexEncodeToString hc
    exact hexDigitChar_isLowerHex n
  · simp only [L2TransferTxInfo.GetL1SignatureBody]
    rw [hstrip]

/-- Witness for C10: for the sample transfer's all-zero 32-byte memo, the
stripping step is the identity and the encoding has 64 characters. -/
theorem transfer_l1_memo_token_witness :
    stripZeroXOnce (hexEncodeToString sampleTransfer.Memo) =
      hexEncodeToString sampleTransfer.Memo ∧
    (hexEncodeToString sampleTransfer.Memo).length = 64 :=
  ⟨(transfer_l1_memo_token sampleTransfer 1 (by decide) (by decide)).1,
    (transfer_l1_memo_token sampleTransfer 1 (by decide) (by decide)).2.1⟩
